import Mathlib

/-!
# path_craft — verification of the task/subtask status-lifecycle and
# calendar-aggregation view model

Shallow embedding of the core logic of the `path_craft` repository:

* `src/frontend/src/pages/Tasks.js` — status transition engine
  (`getStatusActions`), subtask cache (`fetchSubtasks`,
  `toggleTaskExpansion`) and the mutation handlers (`updateTaskStatus`,
  `updateSubtaskStatus`, `fetchTasksData`);
* the Goals page (`src/unnamed/part_001`) — `handleCreateGoal`,
  `handleDeleteGoal`, `fetchGoals`;
* the Calendar page (`src/unnamed/part_002`) — `getDaysInMonth`,
  `getFirstDayOfMonth`, `isSameDate`, `getTasksForDate`, `navigateMonth`,
  the generated `calendarDays` grid and the Today button.

JavaScript objects keyed by id are modelled as association lists in
insertion order (spread update `{...prev, [k]: v}` replaces the entry in
place when the key exists and appends otherwise).  Each React event
handler becomes a function from the component state to the new component
state paired with the list of externally visible events it performs
(network requests, `window.alert`, `console.error`, flag updates); the
success or failure of each awaited backend call is an explicit boolean
parameter, since the handlers behave deterministically given those
outcomes.  JavaScript `Date` values are modelled by their local-time
components (`getFullYear` / `getMonth` / `getDate` / time of day).
-/

namespace PathCraft

/-! ## Status enum (§3 of the spec; lowercase wire tokens) -/

/-- The four-value status enum shared by tasks and subtasks. -/
inductive Status where
  | pending
  | in_progress
  | completed
  | cancelled
deriving DecidableEq, Repr

/-! ## Status Transition Engine — `getStatusActions` (Tasks.js 155–207) -/

/-- One action button produced by `getStatusActions`: its React `key`
prop, the status its `onClick` handler passes to `onUpdate`, and its
`disabled` prop (the caller's `isLoading`). -/
structure ActionButton where
  key : String
  target : Status
  disabled : Bool
deriving DecidableEq, Repr

/-- Embedding of `getStatusActions(currentStatus, onUpdate, isLoading)`
(Tasks.js 155–207).  The source pushes, in this order:
a Complete button whenever the status is not `completed`
(`onUpdate('completed')`), a Start button when the status is `pending`
(`onUpdate('in_progress')`), and a Pause button when the status is
`in_progress` (`onUpdate('pending')`). -/
def getStatusActions (currentStatus : Status) (isLoading : Bool) :
    List ActionButton :=
  (if currentStatus ≠ Status.completed then
      [⟨"complete", Status.completed, isLoading⟩] else [])
  ++ (if currentStatus = Status.pending then
      [⟨"start", Status.in_progress, isLoading⟩] else [])
  ++ (if currentStatus = Status.in_progress then
      [⟨"pause", Status.pending, isLoading⟩] else [])

/-- Modelled from the spec: the §4.1 table of available actions per
status — `pending ↦ {start, complete}`, `in_progress ↦ {pause,
complete}`, `completed ↦ {}`, `cancelled ↦ {}`.  Used only to compare the
table the spec states with the action set the source computes. -/
def specTableActions : Status → List String
  | Status.pending => ["start", "complete"]
  | Status.in_progress => ["pause", "complete"]
  | Status.completed => []
  | Status.cancelled => []

/-- The §4.1 table amended to what the code computes: `cancelled` also
offers the `complete` action (the source only excludes the Complete
button for the `completed` status). -/
def specTableActionsAmended : Status → List String
  | Status.pending => ["start", "complete"]
  | Status.in_progress => ["pause", "complete"]
  | Status.completed => []
  | Status.cancelled => ["complete"]

/-! ## JavaScript `Date` model (local-time components) -/

/-- A JavaScript `Date`, reduced to the local-time components the
calendar logic reads: `getFullYear`, `getMonth` (0-based), `getDate`
(1-based), and the time of day (which `toDateString` comparisons
ignore). -/
structure JSDate where
  year : Int
  month0 : Nat
  day : Nat
  hour : Nat
  minute : Nat
deriving DecidableEq, Repr

/-- Gregorian leap-year rule, as the `Date` implementation applies it. -/
def isLeapYear (y : Int) : Bool :=
  (y % 4 == 0 && y % 100 != 0) || y % 400 == 0

/-- Length of the month with 0-based index `m0` in year `y`. -/
def monthLength (y : Int) (m0 : Nat) : Nat :=
  if m0 = 1 then (if isLeapYear y then 29 else 28)
  else if m0 = 3 ∨ m0 = 5 ∨ m0 = 8 ∨ m0 = 10 then 30
  else 31

/-- Embedding of the JavaScript `new Date(year, month, day)` constructor
(equivalently `setMonth` on a copied date): the month argument may lie
outside `0..11` and is folded into the year with floored division, and a
day argument outside the resulting month's range rolls into the adjacent
month.  Faithful for the day arguments the component ever passes
(`0 ≤ d ≤ 31`, so at most one month of roll-over in either direction);
the time of day of such a constructed date is midnight. -/
def mkDate (y M d : Int) : JSDate :=
  let y1 : Int := y + M.fdiv 12
  let m1 : Nat := (M.fmod 12).toNat
  if d ≤ 0 then
    -- day 0 (or below) borrows from the previous month
    let y0 : Int := if m1 = 0 then y1 - 1 else y1
    let m0 : Nat := if m1 = 0 then 11 else m1 - 1
    ⟨y0, m0, ((monthLength y0 m0 : Int) + d).toNat, 0, 0⟩
  else if d ≤ (monthLength y1 m1 : Int) then
    ⟨y1, m1, d.toNat, 0, 0⟩
  else
    -- day beyond the month's end overflows into the next month
    let y2 : Int := if m1 = 11 then y1 + 1 else y1
    let m2 : Nat := if m1 = 11 then 0 else m1 + 1
    ⟨y2, m2, (d - (monthLength y1 m1 : Int)).toNat, 0, 0⟩

/-- Days since 1970-01-01 of the civil date `(y, m0 + 1, d)` (standard
civil-from-days arithmetic); only its value modulo 7 is consumed, to
compute `Date.prototype.getDay`. -/
def daysFromCivil (y : Int) (m0 : Nat) (d : Nat) : Int :=
  let m : Int := (m0 : Int) + 1
  let y1 : Int := if m ≤ 2 then y - 1 else y
  let era : Int := y1.fdiv 400
  let yoe : Int := y1 - era * 400
  let mp : Int := (m + 9) % 12
  let doy : Int := (153 * mp + 2) / 5 + (d : Int) - 1
  let doe : Int := yoe * 365 + yoe / 4 - yoe / 100 + doy
  era * 146097 + doe - 719468

/-- `Date.prototype.getDay`: day of the week, Sunday-first
(`0 = Sunday`); 1970-01-01 was a Thursday. -/
def getDay (dt : JSDate) : Nat :=
  ((daysFromCivil dt.year dt.month0 dt.day + 4).fmod 7).toNat

/-! ## Calendar Aggregator (src/unnamed/part_002) -/

/-- `getDaysInMonth(date)` (part_002 69–71): the `getDate` of
`new Date(getFullYear(date), getMonth(date) + 1, 0)` — day zero of the
next month, i.e. the last day of `date`'s month. -/
def getDaysInMonth (date : JSDate) : Nat :=
  (mkDate date.year ((date.month0 : Int) + 1) 0).day

/-- `getFirstDayOfMonth(date)` (part_002 73–75): the Sunday-first
weekday index of the first of `date`'s month. -/
def getFirstDayOfMonth (date : JSDate) : Nat :=
  getDay (mkDate date.year (date.month0 : Int) 1)

/-- The `calendarDays` array built in part_002 115–128: a loop pushing
`firstDay` `null` cells, then a loop pushing the day numbers `1` to
`daysInMonth`.  `none` is a blank placeholder cell, `some d` day `d`. -/
def calendarDays (currentDate : JSDate) : List (Option Nat) :=
  let daysInMonth := getDaysInMonth currentDate
  let firstDay := getFirstDayOfMonth currentDate
  let cells := (List.range firstDay).foldl (fun acc _ => acc ++ [none]) []
  (List.range daysInMonth).foldl (fun acc day => acc ++ [some (day + 1)]) cells

/-- The local year/month/day triple that `Date.prototype.toDateString`
renders (its weekday and month names are functions of these, so two
dates have equal `toDateString` exactly when these triples are
equal). -/
def dateStringKey (d : JSDate) : Int × Nat × Nat :=
  (d.year, d.month0, d.day)

/-- `isSameDate(date1, date2)` (part_002 84–86): comparison of the two
dates' `toDateString` renderings — calendar-day granularity in local
time. -/
def isSameDate (date1 date2 : JSDate) : Bool :=
  dateStringKey date1 = dateStringKey date2

/-- `navigateMonth(direction)` (part_002 99–103): copies `currentDate`
and applies `setMonth(getMonth() + direction)`; the copy keeps the time
of day. -/
def navigateMonth (currentDate : JSDate) (direction : Int) : JSDate :=
  let r := mkDate currentDate.year ((currentDate.month0 : Int) + direction)
      (currentDate.day : Int)
  { r with hour := currentDate.hour, minute := currentDate.minute }

/-- The Today button (part_002 159–165): `setCurrentDate(new Date())` —
replaces the view date with the real current date `now`, ignoring the
previous view state. -/
def todayClick (_currentDate now : JSDate) : JSDate := now

/-! ## Data model (§3) -/

/-- A subtask record, with the fields the core logic reads. -/
structure Subtask where
  id : Nat
  description : String
  scheduled_date : JSDate
  status : Status
deriving DecidableEq, Repr

/-- A task record; `scheduled_date` is the parsed `new
Date(task.scheduled_date)` in local-time components. -/
structure Task where
  id : Nat
  title : String
  week_number : Nat
  scheduled_date : JSDate
  status : Status
deriving DecidableEq, Repr

/-- A goal record, with the fields the handlers touch. -/
structure Goal where
  id : Nat
  goal_name : String
  weeks : Nat
deriving DecidableEq, Repr

/-! ## Association lists: JavaScript objects keyed by id

`{...prev, [k]: v}` replaces the entry for `k` in place when the key is
present and appends it otherwise; key enumeration (`Object.keys`,
`Object.values`) follows insertion order. -/

/-- `obj[k]`: the value stored under `k`, if any. -/
def lookupA {κ α : Type} [DecidableEq κ] (k : κ) :
    List (κ × α) → Option α
  | [] => none
  | (k', v) :: t => if k' = k then some v else lookupA k t

/-- `{...obj, [k]: v}`. -/
def setA {κ α : Type} [DecidableEq κ] (k : κ) (v : α) :
    List (κ × α) → List (κ × α)
  | [] => [(k, v)]
  | (k', v') :: t => if k' = k then (k, v) :: t else (k', v') :: setA k v t

/-! ## Events and backend oracle -/

/-- One externally visible step a handler performs: a backend request, a
state flag update, a user-facing `window.alert` / `window.confirm`, or a
`console.error` log line. -/
inductive Event where
  | getGoals
  | getTasks (goalId : Nat)
  | getSubtasks (taskId : Nat)
  | putTask (taskId : Nat) (newStatus : Status)
  | putSubtask (subtaskId : Nat) (newStatus : Status)
  | postGoal
  | deleteGoal (goalId : Nat)
  | setLoadingFlag (key : String) (value : Bool)
  | setFormLoading (value : Bool)
  | alert (msg : String)
  | consoleError (msg : String)
  | confirmPrompt
deriving DecidableEq, Repr

/-- The data the backend would return, per endpoint.  Whether each
awaited call succeeds is passed to the handlers separately. -/
structure Backend where
  goals : List Goal
  tasksOf : Nat → List Task
  subtasksOf : Nat → List Subtask

/-- The `window.alert` events of a trace are the only user-visible
failure notices the components produce (`console.error` writes to the
developer console, not the page). -/
def Event.isAlert : Event → Bool
  | Event.alert _ => true
  | _ => false

/-- Entity-keyed in-flight flag updates (`setLoadingStates`), as opposed
to the Goals form's single `setFormLoading` flag. -/
def Event.isSetLoadingFlag : Event → Bool
  | Event.setLoadingFlag _ _ => true
  | _ => false

/-- Requests that refetch the goal/task collections. -/
def Event.isGoalOrTaskFetch : Event → Bool
  | Event.getGoals => true
  | Event.getTasks _ => true
  | _ => false

/-- Subtask-collection fetches. -/
def Event.isSubtaskFetch : Event → Bool
  | Event.getSubtasks _ => true
  | _ => false

/-! ## Tasks page state and handlers (Tasks.js) -/

/-- The `useState` cells of the Tasks component: `goals`, `tasks` (keyed
by goal id), `subtasks` (keyed by task id), `loading`, `expandedTasks`,
`loadingStates` (keyed by strings such as `task_3`, `subtask_7`). -/
structure TasksState where
  goals : List Goal
  tasks : List (Nat × List Task)
  subtasks : List (Nat × List Subtask)
  loading : Bool
  expandedTasks : List Nat
  loadingStates : List (String × Bool)
deriving DecidableEq, Repr

/-- The fresh Tasks component state. -/
def TasksState.initial : TasksState := ⟨[], [], [], true, [], []⟩

/-- The `loadingStates` key for a task. -/
def taskKey (taskId : Nat) : String := "task_" ++ toString taskId

/-- The `loadingStates` key for a subtask. -/
def subtaskKey (subtaskId : Nat) : String := "subtask_" ++ toString subtaskId

/-- Console messages and alerts, verbatim from the source. -/
def errFetchTasksMsg : String := "Error fetching tasks data:"

def errFetchSubtasksMsg : String := "Error fetching subtasks:"

def errUpdateTaskMsg : String := "Error updating task status:"

def alertUpdateTaskMsg : String :=
  "Failed to update task status. Please try again."

def errUpdateSubtaskMsg : String := "Error updating subtask status:"

def alertUpdateSubtaskMsg : String :=
  "Failed to update subtask status. Please try again."

def errFetchGoalsMsg : String := "Error fetching goals:"

def errCreateGoalMsg : String := "Error creating goal:"

def alertCreateGoalMsg : String := "Failed to create goal. Please try again."

def errDeleteGoalMsg : String := "Error deleting goal:"

def alertDeleteGoalMsg : String := "Failed to delete goal. Please try again."

/-- `fetchTasksData` (Tasks.js 31–49): GET the goals, `setGoals`, then
GET each goal's tasks into a fresh map and `setTasks` it; any thrown
error is caught and logged, and `finally` clears `loading`.  `failAt =
none` is the all-successful run; `failAt = some 0` fails the goals GET
(before `setGoals`); `failAt = some (k+1)` fails the tasks GET for the
goal at index `k` (goals already replaced, `setTasks` never reached) —
when no such request exists the run is the successful one. -/
def fetchTasksData (failAt : Option Nat) (B : Backend) (st : TasksState) :
    TasksState × List Event :=
  match failAt with
  | some 0 =>
      ({ st with loading := false },
       [Event.getGoals, Event.consoleError errFetchTasksMsg])
  | some (k + 1) =>
      if k < B.goals.length then
        ({ st with goals := B.goals, loading := false },
         Event.getGoals
           :: ((B.goals.take (k + 1)).map (fun g => Event.getTasks g.id))
           ++ [Event.consoleError errFetchTasksMsg])
      else
        ({ st with goals := B.goals,
                   tasks := B.goals.map (fun g => (g.id, B.tasksOf g.id)),
                   loading := false },
         Event.getGoals :: B.goals.map (fun g => Event.getTasks g.id))
  | none =>
      ({ st with goals := B.goals,
                 tasks := B.goals.map (fun g => (g.id, B.tasksOf g.id)),
                 loading := false },
       Event.getGoals :: B.goals.map (fun g => Event.getTasks g.id))

/-- `fetchSubtasks(taskId)` (Tasks.js 51–63): return immediately when
`subtasks[taskId]` is already populated; otherwise GET the subtasks and
merge them into the cache under `taskId`, logging (only) to the console
on failure.  `ok` is whether the awaited GET succeeds. -/
def fetchSubtasks (ok : Bool) (B : Backend) (taskId : Nat)
    (st : TasksState) : TasksState × List Event :=
  if (lookupA taskId st.subtasks).isSome then (st, [])
  else if ok then
    ({ st with subtasks := setA taskId (B.subtasksOf taskId) st.subtasks },
     [Event.getSubtasks taskId])
  else
    (st, [Event.getSubtasks taskId, Event.consoleError errFetchSubtasksMsg])

/-- The synchronous prefix of `fetchSubtasks`, up to its first `await`:
the cache guard and, on a miss, the issuing of the GET request.  A
second invocation that starts while the first request is still in
flight runs exactly this prefix against the still-unpopulated cache. -/
def fetchSubtasksSync (taskId : Nat) (st : TasksState) :
    TasksState × List Event :=
  if (lookupA taskId st.subtasks).isSome then (st, [])
  else (st, [Event.getSubtasks taskId])

/-- The continuation of `fetchSubtasks` after its GET resolves
successfully: `setSubtasks(prev => ({...prev, [taskId]: response.data}))`
— the last response to arrive wins. -/
def fetchSubtasksCont (taskId : Nat) (data : List Subtask)
    (st : TasksState) : TasksState :=
  { st with subtasks := setA taskId data st.subtasks }

/-- `toggleTaskExpansion(taskId)` (Tasks.js 65–76): collapse when
expanded; otherwise fetch the subtasks (awaited) and expand.  The
`expandedTasks` update runs after the awaited fetch returns. -/
def toggleTaskExpansion (ok : Bool) (B : Backend) (taskId : Nat)
    (st : TasksState) : TasksState × List Event :=
  if st.expandedTasks.contains taskId then
    ({ st with expandedTasks := st.expandedTasks.filter (· ≠ taskId) }, [])
  else
    let r := fetchSubtasks ok B taskId st
    ({ r.1 with expandedTasks := st.expandedTasks ++ [taskId] }, r.2)

/-- `updateTaskStatus(taskId, newStatus)` (Tasks.js 78–94): set the
`task_<id>` in-flight flag, PUT the new status, on success fire
`fetchTasksData()` (not awaited; its events are serialized here after
the PUT — no theorem relies on their order relative to the flag-clear),
on failure log and `alert`, and `finally` clear the flag.  `putOk` is
whether the PUT succeeds; `fetchFailAt` is threaded to the refetch. -/
def updateTaskStatus (putOk : Bool) (fetchFailAt : Option Nat)
    (B : Backend) (taskId : Nat) (newStatus : Status) (st : TasksState) :
    TasksState × List Event :=
  let key := taskKey taskId
  let st1 := { st with loadingStates := setA key true st.loadingStates }
  if putOk then
    let r := fetchTasksData fetchFailAt B st1
    ({ r.1 with loadingStates := setA key false r.1.loadingStates },
     Event.setLoadingFlag key true :: Event.putTask taskId newStatus
       :: r.2 ++ [Event.setLoadingFlag key false])
  else
    ({ st1 with loadingStates := setA key false st1.loadingStates },
     [Event.setLoadingFlag key true, Event.putTask taskId newStatus,
      Event.consoleError errUpdateTaskMsg, Event.alert alertUpdateTaskMsg,
      Event.setLoadingFlag key false])

/-- `Object.keys(subtasks).find(taskId =>
subtasks[taskId]?.some(st => st.id === subtaskId))` (Tasks.js 105–107):
the first cached task id, in insertion order, whose collection contains
the subtask. -/
def findParent (subtasks : List (Nat × List Subtask)) (subtaskId : Nat) :
    Option Nat :=
  (subtasks.find? (fun p => p.2.any (fun s => s.id == subtaskId))).map
    (fun p => p.1)

/-- `updateSubtaskStatus(subtaskId, newStatus)` (Tasks.js 96–122): set
the `subtask_<id>` in-flight flag, PUT the new status, then look up the
parent task among the cached subtask collections; when found, GET that
task's subtasks again and replace only its cache entry.  Any thrown
error (the PUT's or the refetch GET's) is caught, logged and alerted;
`finally` clears the flag.  `putOk` / `refetchOk` are the outcomes of
the two awaited calls. -/
def updateSubtaskStatus (putOk refetchOk : Bool) (B : Backend)
    (subtaskId : Nat) (newStatus : Status) (st : TasksState) :
    TasksState × List Event :=
  let key := subtaskKey subtaskId
  let st1 := { st with loadingStates := setA key true st.loadingStates }
  if putOk then
    match findParent st.subtasks subtaskId with
    | some parentTaskId =>
        if refetchOk then
          ({ st1 with
              subtasks := setA parentTaskId (B.subtasksOf parentTaskId)
                st1.subtasks,
              loadingStates := setA key false st1.loadingStates },
           [Event.setLoadingFlag key true,
            Event.putSubtask subtaskId newStatus,
            Event.getSubtasks parentTaskId,
            Event.setLoadingFlag key false])
        else
          ({ st1 with loadingStates := setA key false st1.loadingStates },
           [Event.setLoadingFlag key true,
            Event.putSubtask subtaskId newStatus,
            Event.getSubtasks parentTaskId,
            Event.consoleError errUpdateSubtaskMsg,
            Event.alert alertUpdateSubtaskMsg,
            Event.setLoadingFlag key false])
    | none =>
        ({ st1 with loadingStates := setA key false st1.loadingStates },
         [Event.setLoadingFlag key true,
          Event.putSubtask subtaskId newStatus,
          Event.setLoadingFlag key false])
  else
    ({ st1 with loadingStates := setA key false st1.loadingStates },
     [Event.setLoadingFlag key true,
      Event.putSubtask subtaskId newStatus,
      Event.consoleError errUpdateSubtaskMsg,
      Event.alert alertUpdateSubtaskMsg,
      Event.setLoadingFlag key false])

/-! ## Goals page state and handlers (src/unnamed/part_001) -/

/-- The `useState` cells of the Goals component that the mutation
handlers touch. -/
structure GoalsState where
  goals : List Goal
  loading : Bool
  showCreateForm : Bool
  formLoading : Bool
deriving DecidableEq, Repr

/-- `fetchGoals` (part_001 36–45): GET the goals and replace the
collection; log to the console on failure; `finally` clears
`loading`. -/
def fetchGoals (ok : Bool) (B : Backend) (st : GoalsState) :
    GoalsState × List Event :=
  if ok then
    ({ st with goals := B.goals, loading := false }, [Event.getGoals])
  else
    ({ st with loading := false },
     [Event.getGoals, Event.consoleError errFetchGoalsMsg])

/-- `handleCreateGoal` (part_001 47–62): set the form-wide
`formLoading` flag (not keyed by any entity), POST the goal, on success
reset and hide the form and fire `fetchGoals()`, on failure log and
`alert`; `finally` clears `formLoading`. -/
def handleCreateGoal (postOk fetchOk : Bool) (B : Backend)
    (st : GoalsState) : GoalsState × List Event :=
  let st1 := { st with formLoading := true }
  if postOk then
    let r := fetchGoals fetchOk B { st1 with showCreateForm := false }
    ({ r.1 with formLoading := false },
     Event.setFormLoading true :: Event.postGoal
       :: r.2 ++ [Event.setFormLoading false])
  else
    ({ st1 with formLoading := false },
     [Event.setFormLoading true, Event.postGoal,
      Event.consoleError errCreateGoalMsg, Event.alert alertCreateGoalMsg,
      Event.setFormLoading false])

/-- `handleDeleteGoal(goalId)` (part_001 64–76): a `window.confirm`
gate; declining returns with no request.  Otherwise DELETE the goal and
on success fire `fetchGoals()`, on failure log and `alert`.  No
in-flight flag of any kind is touched. -/
def handleDeleteGoal (confirmed deleteOk fetchOk : Bool) (B : Backend)
    (goalId : Nat) (st : GoalsState) : GoalsState × List Event :=
  if ¬ confirmed then (st, [Event.confirmPrompt])
  else if deleteOk then
    let r := fetchGoals fetchOk B st
    (r.1, Event.confirmPrompt :: Event.deleteGoal goalId :: r.2)
  else
    (st,
     [Event.confirmPrompt, Event.deleteGoal goalId,
      Event.consoleError errDeleteGoalMsg, Event.alert alertDeleteGoalMsg])

/-! ## Calendar day-bucketing (part_002 88–97) -/

/-- `getTasksForDate(date)` (part_002 88–97):
`Object.values(tasks).flat()` scanned in order, keeping the tasks whose
parsed `scheduled_date` satisfies `isSameDate` with `date`. -/
def getTasksForDate (tasks : List (Nat × List Task)) (date : JSDate) :
    List Task :=
  ((tasks.map (fun p => p.2)).flatten).filter
    (fun task => isSameDate task.scheduled_date date)

/-! ## Concrete fixtures (used by witnesses and counterexamples) -/

/-- A concrete date: April 1, 2020 (a Wednesday). -/
def sampleDate : JSDate := ⟨2020, 3, 1, 0, 0⟩

/-- A backend with nothing stored. -/
def emptyBackend : Backend := ⟨[], fun _ => [], fun _ => []⟩

/-- A cached subtask with id 9. -/
def sampleSubtask : Subtask := ⟨9, "read the chapter", sampleDate, Status.pending⟩

/-- A backend whose subtask endpoint returns a completed copy of the
sample subtask. -/
def sampleBackend : Backend :=
  ⟨[⟨1, "Learn Lean", 4⟩], fun _ => [],
   fun _ => [⟨9, "read the chapter", sampleDate, Status.completed⟩]⟩

/-- A Tasks-page state whose subtask cache holds task 5's collection
(containing subtask 9) and an empty collection for task 6. -/
def sampleCachedState : TasksState :=
  { TasksState.initial with subtasks := [(5, [sampleSubtask]), (6, [])] }

/-- A Goals-page state with one goal loaded. -/
def sampleGoalsState : GoalsState := ⟨[⟨7, "Learn Lean", 4⟩], false, false, false⟩

/-! # Theorems -/

/-! ## Association-list lemmas -/

theorem lookupA_setA_self {κ α : Type} [DecidableEq κ] (k : κ) (v : α) :
    ∀ l : List (κ × α), lookupA k (setA k v l) = some v
  | [] => by simp [setA, lookupA]
  | (k', v') :: t => by
      by_cases h : k' = k
      · simp [setA, lookupA, h]
      · simp [setA, lookupA, h, lookupA_setA_self k v t]

theorem lookupA_setA_ne {κ α : Type} [DecidableEq κ] {k k' : κ}
    (h : k' ≠ k) (v : α) :
    ∀ l : List (κ × α), lookupA k' (setA k v l) = lookupA k' l
  | [] => by simp [setA, lookupA, Ne.symm h]
  | (k'', v'') :: t => by
      by_cases h2 : k'' = k
      · subst h2
        simp [setA, lookupA, Ne.symm h]
      · simp [setA, lookupA, h2, lookupA_setA_ne h v t]

/-! ## Calendar-grid lemmas -/

theorem foldl_push_blank (n : Nat) :
    ∀ acc : List (Option Nat),
      (List.range n).foldl (fun a _ => a ++ [none]) acc
        = acc ++ List.replicate n (none : Option Nat) := by
  induction n with
  | zero => intro acc; simp
  | succ m ih =>
      intro acc
      rw [List.range_succ, List.foldl_append, ih]
      simp [List.replicate_succ']

theorem foldl_push_day (n : Nat) :
    ∀ acc : List (Option Nat),
      (List.range n).foldl (fun a d => a ++ [some (d + 1)]) acc
        = acc ++ (List.range n).map (fun i => some (i + 1)) := by
  induction n with
  | zero => intro acc; simp
  | succ m ih =>
      intro acc
      rw [List.range_succ, List.foldl_append, ih]
      simp [List.range_succ]

theorem calendarDays_eq (cur : JSDate) :
    calendarDays cur
      = List.replicate (getFirstDayOfMonth cur) none
          ++ (List.range (getDaysInMonth cur)).map (fun i => some (i + 1)) := by
  simp only [calendarDays]
  rw [foldl_push_day, foldl_push_blank]
  simp

/-! ## C1 — Status Transition Engine action table -/

/-- C1, counterexample.  The claim states that `cancelled` yields the
empty action set (the §4.1 table).  In the code, `getStatusActions` only
excludes the Complete button when the current status is `completed`, so
a `cancelled` task or subtask is offered the `complete` action: the
computed action set is `["complete"]`, not the spec table's `[]`. -/
theorem c1_cancelled_not_empty :
    ((getStatusActions Status.cancelled false).map ActionButton.key
        = ["complete"])
      ∧ ¬ ((getStatusActions Status.cancelled false).map ActionButton.key).Perm
          (specTableActions Status.cancelled) := by
  decide

/-- C1, amended.  For every status and every `isLoading` value, the set
of action keys `getStatusActions` produces matches the §4.1 table
amended at exactly one cell: `pending ↦ {start, complete}`,
`in_progress ↦ {pause, complete}`, `completed ↦ {}` — but `cancelled ↦
{complete}` rather than the empty set.  The engine is total (it returns
an action list for every status, never failing), and each offered
button targets the table's destination status. -/
theorem c1_action_table (s : Status) (isLoading : Bool) :
    ((getStatusActions s isLoading).map ActionButton.key).Perm
        (specTableActionsAmended s)
      ∧ (∀ a ∈ getStatusActions s isLoading,
          (a.key = "complete" → a.target = Status.completed)
          ∧ (a.key = "start" → a.target = Status.in_progress)
          ∧ (a.key = "pause" → a.target = Status.pending)
          ∧ a.disabled = isLoading) := by
  cases s <;> cases isLoading <;> decide

/-! ## C5 — calendar cell sequence -/

/-- C5.  For every view date, the generated cell sequence is exactly
`getFirstDayOfMonth` blank cells followed by the day cells `1` to
`getDaysInMonth` — so its length is `leadingBlanks + daysInMonth` and
there is no trailing padding (every cell from position `leadingBlanks`
on is a day cell).  In particular, for April 2020 — a 30-day month whose
first day is a Wednesday — the grid is 3 blanks plus 30 day cells, 33
cells in total. -/
theorem c5_calendar_cells (cur : JSDate) :
    (calendarDays cur
        = List.replicate (getFirstDayOfMonth cur) none
            ++ (List.range (getDaysInMonth cur)).map (fun i => some (i + 1)))
      ∧ (calendarDays cur).length
          = getFirstDayOfMonth cur + getDaysInMonth cur
      ∧ (calendarDays cur).drop (getFirstDayOfMonth cur)
          = (List.range (getDaysInMonth cur)).map (fun i => some (i + 1))
      ∧ getFirstDayOfMonth ⟨2020, 3, 15, 10, 30⟩ = 3
      ∧ getDaysInMonth ⟨2020, 3, 15, 10, 30⟩ = 30
      ∧ (calendarDays ⟨2020, 3, 15, 10, 30⟩).length = 33 := by
  refine ⟨calendarDays_eq cur, ?_, ?_, by decide, by decide, by decide⟩
  · rw [calendarDays_eq cur]; simp
  · rw [calendarDays_eq cur]; simp

/-! ## C6 — day-bucketing -/

/-- C6.  `getTasksForDate` is a function of the flattened task
collection and the input date; a task is in its result exactly when it
occurs in the flattened collection and its `scheduled_date` agrees with
the input date on local year, month and day.  Time of day is ignored on
the input date (and, by the same characterization, on the tasks), and a
task scheduled on any other calendar day — in particular an adjacent
one — is excluded. -/
theorem c6_tasks_for_date (tasks : List (Nat × List Task)) (date : JSDate)
    (task : Task) (h m : Nat) :
    (task ∈ getTasksForDate tasks date
        ↔ task ∈ (tasks.map (fun p => p.2)).flatten
            ∧ task.scheduled_date.year = date.year
            ∧ task.scheduled_date.month0 = date.month0
            ∧ task.scheduled_date.day = date.day)
      ∧ getTasksForDate tasks ⟨date.year, date.month0, date.day, h, m⟩
          = getTasksForDate tasks date := by
  refine ⟨?_, rfl⟩
  simp only [getTasksForDate, List.mem_filter, isSameDate, dateStringKey,
    decide_eq_true_eq, Prod.mk.injEq]

/-! ## C7 — month navigation -/

theorem monthLength_ge (y : Int) (m0 : Nat) : 28 ≤ monthLength y m0 := by
  unfold monthLength
  split
  · split <;> omega
  · split <;> omega

theorem mkDate_of_valid (y M d : Int) (h1 : 0 < d) (h2 : d ≤ 28) :
    mkDate y M d
      = ⟨y + M.fdiv 12, (M.fmod 12).toNat, d.toNat, 0, 0⟩ := by
  have hml : 28 ≤ monthLength (y + M.fdiv 12) ((M.fmod 12).toNat) :=
    monthLength_ge _ _
  have hd0 : ¬ (d ≤ 0) := by omega
  have hle : d ≤ (monthLength (y + M.fdiv 12) ((M.fmod 12).toNat) : Int) := by
    omega
  simp only [mkDate, if_neg hd0, if_pos hle]

/-- C7, counterexample.  From the view state January 31, 2025 — a
reachable state: it is the initial view when the real date is
January 31 — navigating forward one month displays March (month index
2), not February: `setMonth` overflows the day 31 past February's 28
days into March 3.  Calendar rollover semantics, which the claim
asserts for every view state, requires the displayed month to be
February. -/
theorem c7_jan31_navigates_to_march :
    navigateMonth ⟨2025, 0, 31, 0, 0⟩ 1 = ⟨2025, 2, 3, 0, 0⟩
      ∧ (navigateMonth ⟨2025, 0, 31, 0, 0⟩ 1).month0 ≠ 1 := by
  decide

/-- C7, amended.  Provided the current view date's day of month is at
most 28 (so it exists in every target month), navigating by `dir`
months recomputes the displayed year and month with calendar rollover
semantics — the linearized month index `year * 12 + month` moves by
exactly `dir`, so December plus one month is January of the next year
and January minus one month is December of the previous year — and the
day of month is kept.  When the day exceeds the target month's length
the date instead overflows into the following month (the
counterexample).  Independently, the Today control replaces the view
date with the real current date regardless of the prior view state. -/
theorem c7_month_rollover (y : Int) (m0 d : Nat) (dir : Int)
    (hh mi : Nat) (cur now : JSDate)
    (hd1 : 1 ≤ d) (hd2 : d ≤ 28) :
    ((navigateMonth ⟨y, m0, d, hh, mi⟩ dir).year * 12
          + ((navigateMonth ⟨y, m0, d, hh, mi⟩ dir).month0 : Int)
        = y * 12 + (m0 : Int) + dir)
      ∧ (navigateMonth ⟨y, m0, d, hh, mi⟩ dir).day = d
      ∧ (navigateMonth ⟨y, m0, d, hh, mi⟩ dir).month0 ≤ 11
      ∧ todayClick cur now = now := by
  have hrw : navigateMonth ⟨y, m0, d, hh, mi⟩ dir
      = ⟨y + ((m0 : Int) + dir).fdiv 12,
         (((m0 : Int) + dir).fmod 12).toNat, d, hh, mi⟩ := by
    simp only [navigateMonth,
      mkDate_of_valid y ((m0 : Int) + dir) (d : Int) (by omega) (by omega)]
    simp
  have hsum := Int.fdiv_add_fmod ((m0 : Int) + dir) 12
  have hnn : 0 ≤ ((m0 : Int) + dir).fmod 12 :=
    Int.fmod_nonneg' _ (by omega)
  have hlt : ((m0 : Int) + dir).fmod 12 < 12 :=
    Int.fmod_lt_of_pos _ (by omega)
  have hcast : ((((m0 : Int) + dir).fmod 12).toNat : Int)
      = ((m0 : Int) + dir).fmod 12 := Int.toNat_of_nonneg hnn
  rw [hrw]
  refine ⟨?_, rfl, ?_, rfl⟩
  · dsimp only
    omega
  · dsimp only
    omega

/-! ## Handler frame lemmas -/

theorem fetchTasksData_frame (failAt : Option Nat) (B : Backend)
    (st : TasksState) :
    (fetchTasksData failAt B st).1.subtasks = st.subtasks
      ∧ (fetchTasksData failAt B st).1.loadingStates = st.loadingStates
      ∧ (fetchTasksData failAt B st).1.expandedTasks = st.expandedTasks := by
  match failAt with
  | none => exact ⟨rfl, rfl, rfl⟩
  | some 0 => exact ⟨rfl, rfl, rfl⟩
  | some (k + 1) =>
      simp only [fetchTasksData]
      split <;> exact ⟨rfl, rfl, rfl⟩

theorem updateTaskStatus_loadingStates (putOk : Bool)
    (fetchFailAt : Option Nat) (B : Backend) (taskId : Nat)
    (newStatus : Status) (st : TasksState) :
    (updateTaskStatus putOk fetchFailAt B taskId newStatus st).1.loadingStates
      = setA (taskKey taskId) false
          (setA (taskKey taskId) true st.loadingStates) := by
  cases putOk with
  | false => rfl
  | true =>
      show setA (taskKey taskId) false
          (fetchTasksData fetchFailAt B
            { st with
              loadingStates := setA (taskKey taskId) true st.loadingStates
            }).1.loadingStates
        = _
      rw [(fetchTasksData_frame fetchFailAt B _).2.1]

theorem updateSubtaskStatus_loadingStates (putOk refetchOk : Bool)
    (B : Backend) (subtaskId : Nat) (newStatus : Status)
    (st : TasksState) :
    (updateSubtaskStatus putOk refetchOk B subtaskId newStatus st).1.loadingStates
      = setA (subtaskKey subtaskId) false
          (setA (subtaskKey subtaskId) true st.loadingStates) := by
  cases putOk with
  | false => rfl
  | true =>
      simp only [updateSubtaskStatus]
      cases hp : findParent st.subtasks subtaskId with
      | none => rfl
      | some p => cases refetchOk <;> rfl

/-! ## C2 — in-flight flags around mutations -/

/-- C2, counterexample.  The claim asserts that every mutating action —
including goal deletion — sets an entity-keyed in-flight flag before
issuing its request.  `handleDeleteGoal` issues its DELETE request (here
for goal 7, with the confirmation accepted and both calls succeeding)
without setting any in-flight flag at all: its event trace contains the
request but no flag update. -/
theorem c2_delete_goal_no_flag :
    (Event.deleteGoal 7)
        ∈ (handleDeleteGoal true true true sampleBackend 7 sampleGoalsState).2
      ∧ ((handleDeleteGoal true true true sampleBackend 7
            sampleGoalsState).2.filter Event.isSetLoadingFlag) = [] := by
  decide

/-- C2, amended.  Only the two status-update mutations follow the
in-flight-flag discipline: `updateTaskStatus` and `updateSubtaskStatus`
set the flag keyed by their entity (`task_<id>` / `subtask_<id>`) as
their first step, before any request is issued, and on completion every
other key's flag is exactly as it was.  Goal deletion sets no in-flight
flag at all, and goal creation sets only the form-wide `formLoading`
flag, not an entity-keyed one. -/
theorem c2_flag_discipline (putOk confirmed deleteOk fetchOk postOk : Bool)
    (fetchFailAt : Option Nat) (refetchOk : Bool) (B : Backend)
    (taskId subtaskId goalId : Nat) (newStatus : Status)
    (st : TasksState) (gst : GoalsState) :
    ((updateTaskStatus putOk fetchFailAt B taskId newStatus st).2.head?
        = some (Event.setLoadingFlag (taskKey taskId) true))
      ∧ ((updateSubtaskStatus putOk refetchOk B subtaskId newStatus st).2.head?
          = some (Event.setLoadingFlag (subtaskKey subtaskId) true))
      ∧ (∀ k, k ≠ taskKey taskId →
          lookupA k (updateTaskStatus putOk fetchFailAt B taskId newStatus
              st).1.loadingStates
            = lookupA k st.loadingStates)
      ∧ (∀ k, k ≠ subtaskKey subtaskId →
          lookupA k (updateSubtaskStatus putOk refetchOk B subtaskId newStatus
              st).1.loadingStates
            = lookupA k st.loadingStates)
      ∧ ((handleDeleteGoal confirmed deleteOk fetchOk B goalId
            gst).2.filter Event.isSetLoadingFlag = [])
      ∧ ((handleCreateGoal postOk fetchOk B gst).2.filter
            Event.isSetLoadingFlag = []) := by
  refine ⟨?_, ?_, ?_, ?_, ?_, ?_⟩
  · cases putOk <;> rfl
  · cases putOk with
    | false => rfl
    | true =>
        simp only [updateSubtaskStatus]
        cases findParent st.subtasks subtaskId with
        | none => rfl
        | some p => cases refetchOk <;> rfl
  · intro k hk
    rw [updateTaskStatus_loadingStates,
      lookupA_setA_ne hk, lookupA_setA_ne hk]
  · intro k hk
    rw [updateSubtaskStatus_loadingStates,
      lookupA_setA_ne hk, lookupA_setA_ne hk]
  · cases confirmed <;> cases deleteOk <;> cases fetchOk <;>
      simp [handleDeleteGoal, fetchGoals, Event.isSetLoadingFlag]
  · cases postOk <;> cases fetchOk <;>
      simp [handleCreateGoal, fetchGoals, Event.isSetLoadingFlag]

/-! ## C3 — subtask cache: at most one fetch -/

/-- C3, counterexample.  The claim asserts that repeated calls issue
exactly one fetch in total even when triggered by rapidly toggling the
same task's expansion.  A toggle that starts while the first fetch for
task 1 is still in flight runs the synchronous prefix of
`fetchSubtasks` against the still-empty cache, so it passes the
`subtasks[taskId]` guard too and issues a second GET: two network calls
for the same task, before any invalidation. -/
theorem c3_rapid_toggle_double_fetch :
    ((fetchSubtasksSync 1 TasksState.initial).2
        ++ (fetchSubtasksSync 1 (fetchSubtasksSync 1 TasksState.initial).1).2)
      = [Event.getSubtasks 1, Event.getSubtasks 1] := by
  decide

/-- The sequential run of `fetchSubtasks` is its synchronous prefix
followed, when a request was issued and succeeds, by its
continuation — the decomposition the rapid-toggle counterexample
interleaves. -/
theorem fetchSubtasks_phases (B : Backend) (taskId : Nat)
    (st : TasksState) :
    fetchSubtasks true B taskId st
      = if (lookupA taskId st.subtasks).isSome then fetchSubtasksSync taskId st
        else (fetchSubtasksCont taskId (B.subtasksOf taskId)
                (fetchSubtasksSync taskId st).1,
              (fetchSubtasksSync taskId st).2) := by
  by_cases h : (lookupA taskId st.subtasks).isSome <;>
    simp [fetchSubtasks, fetchSubtasksSync, fetchSubtasksCont, h]

/-- C3, amended.  For sequential (non-overlapping) calls the claim
holds: when task `t`'s subtasks are not yet cached and the fetch
succeeds, the call issues exactly one subtask GET and populates the
cache under `t`, and every later call — against any backend and any
outcome — returns immediately with no event at all.  Calls that overlap
an in-flight fetch for the same task are not coalesced (the
counterexample). -/
theorem c3_sequential_single_fetch (B B2 : Backend) (ok2 : Bool)
    (t : Nat) (st : TasksState)
    (h : lookupA t st.subtasks = none) :
    (((fetchSubtasks true B t st).2.filter Event.isSubtaskFetch).length = 1)
      ∧ lookupA t (fetchSubtasks true B t st).1.subtasks
          = some (B.subtasksOf t)
      ∧ fetchSubtasks ok2 B2 t (fetchSubtasks true B t st).1
          = ((fetchSubtasks true B t st).1, []) := by
  have h1 : fetchSubtasks true B t st
      = ({ st with subtasks := setA t (B.subtasksOf t) st.subtasks },
         [Event.getSubtasks t]) := by
    simp [fetchSubtasks, h]
  refine ⟨by rw [h1]; rfl, ?_, ?_⟩
  · rw [h1]
    exact lookupA_setA_self t _ st.subtasks
  · rw [h1]
    have h2 : (lookupA t (setA t (B.subtasksOf t) st.subtasks)).isSome = true := by
      rw [lookupA_setA_self]
      rfl
    simp [fetchSubtasks, h2]

/-- C3, witness for the amended theorem at task 1 of the fresh state. -/
theorem c3_sequential_single_fetch_witness :
    (((fetchSubtasks true sampleBackend 1 TasksState.initial).2.filter
          Event.isSubtaskFetch).length = 1)
      ∧ lookupA 1 (fetchSubtasks true sampleBackend 1
            TasksState.initial).1.subtasks
          = some (sampleBackend.subtasksOf 1)
      ∧ fetchSubtasks true sampleBackend 1
            (fetchSubtasks true sampleBackend 1 TasksState.initial).1
          = ((fetchSubtasks true sampleBackend 1 TasksState.initial).1, []) :=
  c3_sequential_single_fetch sampleBackend sampleBackend true 1
    TasksState.initial (by decide)

/-- C7, witness for the amended theorem: from December 15, 2025,
navigating forward one month yields a view whose linearized month index
is that of January 2026. -/
theorem c7_month_rollover_witness :
    ((navigateMonth ⟨2025, 11, 15, 0, 0⟩ 1).year * 12
          + ((navigateMonth ⟨2025, 11, 15, 0, 0⟩ 1).month0 : Int)
        = 2025 * 12 + ((11 : Nat) : Int) + 1)
      ∧ (navigateMonth ⟨2025, 11, 15, 0, 0⟩ 1).day = 15
      ∧ (navigateMonth ⟨2025, 11, 15, 0, 0⟩ 1).month0 ≤ 11
      ∧ todayClick ⟨2025, 11, 15, 0, 0⟩ sampleDate = sampleDate :=
  c7_month_rollover 2025 11 15 1 0 0 ⟨2025, 11, 15, 0, 0⟩ sampleDate
    (by decide) (by decide)

/-! ## C4 — failed status updates -/

/-- C4.  When the PUT of a task or subtask status update fails, the
handler leaves the cached goal, task and subtask collections exactly as
they were (no partial or optimistic mutation), shows the user-visible
failure alert, and the entity's in-flight flag ends at `false`.
Moreover, for every combination of outcomes — success or failure of the
PUT, of the task-collection refetch, and of the subtask refetch — the
entity's in-flight flag is `false` once the handler completes: it never
remains stuck. -/
theorem c4_failed_update_rolls_back (putOk refetchOk : Bool)
    (fetchFailAt : Option Nat) (B : Backend) (taskId subtaskId : Nat)
    (newStatus : Status) (st : TasksState) :
    ((updateTaskStatus false fetchFailAt B taskId newStatus st).1.goals
        = st.goals)
      ∧ ((updateTaskStatus false fetchFailAt B taskId newStatus st).1.tasks
          = st.tasks)
      ∧ ((updateTaskStatus false fetchFailAt B taskId newStatus st).1.subtasks
          = st.subtasks)
      ∧ (Event.alert alertUpdateTaskMsg
          ∈ (updateTaskStatus false fetchFailAt B taskId newStatus st).2)
      ∧ ((updateSubtaskStatus false refetchOk B subtaskId newStatus st).1.goals
          = st.goals)
      ∧ ((updateSubtaskStatus false refetchOk B subtaskId newStatus st).1.tasks
          = st.tasks)
      ∧ ((updateSubtaskStatus false refetchOk B subtaskId newStatus
            st).1.subtasks = st.subtasks)
      ∧ (Event.alert alertUpdateSubtaskMsg
          ∈ (updateSubtaskStatus false refetchOk B subtaskId newStatus st).2)
      ∧ (lookupA (taskKey taskId)
            (updateTaskStatus putOk fetchFailAt B taskId newStatus
              st).1.loadingStates = some false)
      ∧ (lookupA (subtaskKey subtaskId)
            (updateSubtaskStatus putOk refetchOk B subtaskId newStatus
              st).1.loadingStates = some false) := by
  refine ⟨rfl, rfl, rfl, ?_, rfl, rfl, rfl, ?_, ?_, ?_⟩
  · simp [updateTaskStatus]
  · simp [updateSubtaskStatus]
  · rw [updateTaskStatus_loadingStates]
    exact lookupA_setA_self _ _ _
  · rw [updateSubtaskStatus_loadingStates]
    exact lookupA_setA_self _ _ _

/-! ## C8 — narrow refetch after a subtask update -/

/-- C8.  After a successful subtask status update whose subtask is
cached under task `p` (the first — with the data-model invariant that a
subtask is cached under exactly one task, the only — matching cache
entry), the handler refetches and replaces only task `p`'s subtask
collection: every other task's cached collection is untouched, the goal
and task collections are not refetched (the trace contains no goal or
task GET), and the only subtask GET in the trace is the one for `p`. -/
theorem c8_narrow_refetch (B : Backend) (subtaskId : Nat)
    (newStatus : Status) (st : TasksState) (p : Nat)
    (hp : findParent st.subtasks subtaskId = some p) :
    (lookupA p (updateSubtaskStatus true true B subtaskId newStatus
          st).1.subtasks = some (B.subtasksOf p))
      ∧ (∀ q, q ≠ p →
          lookupA q (updateSubtaskStatus true true B subtaskId newStatus
              st).1.subtasks = lookupA q st.subtasks)
      ∧ ((updateSubtaskStatus true true B subtaskId newStatus st).1.goals
          = st.goals)
      ∧ ((updateSubtaskStatus true true B subtaskId newStatus st).1.tasks
          = st.tasks)
      ∧ ((updateSubtaskStatus true true B subtaskId newStatus st).2.filter
            Event.isGoalOrTaskFetch = [])
      ∧ ((updateSubtaskStatus true true B subtaskId newStatus st).2.filter
            Event.isSubtaskFetch = [Event.getSubtasks p]) := by
  have hred : updateSubtaskStatus true true B subtaskId newStatus st
      = ({ st with
            subtasks := setA p (B.subtasksOf p) st.subtasks,
            loadingStates := setA (subtaskKey subtaskId) false
              (setA (subtaskKey subtaskId) true st.loadingStates) },
         [Event.setLoadingFlag (subtaskKey subtaskId) true,
          Event.putSubtask subtaskId newStatus,
          Event.getSubtasks p,
          Event.setLoadingFlag (subtaskKey subtaskId) false]) := by
    simp only [updateSubtaskStatus, hp]
    rfl
  rw [hred]
  refine ⟨lookupA_setA_self _ _ _, ?_, rfl, rfl, ?_, ?_⟩
  · intro q hq
    exact lookupA_setA_ne hq _ _
  · simp [Event.isGoalOrTaskFetch]
  · simp [Event.isSubtaskFetch]

/-- C8, witness: in the state whose cache holds task 5's collection
(containing subtask 9) and task 6's empty collection, a successful
update of subtask 9 replaces only entry 5. -/
theorem c8_narrow_refetch_witness :
    (lookupA 5 (updateSubtaskStatus true true sampleBackend 9
          Status.completed sampleCachedState).1.subtasks
        = some (sampleBackend.subtasksOf 5))
      ∧ (∀ q, q ≠ 5 →
          lookupA q (updateSubtaskStatus true true sampleBackend 9
              Status.completed sampleCachedState).1.subtasks
            = lookupA q sampleCachedState.subtasks)
      ∧ ((updateSubtaskStatus true true sampleBackend 9 Status.completed
            sampleCachedState).1.goals = sampleCachedState.goals)
      ∧ ((updateSubtaskStatus true true sampleBackend 9 Status.completed
            sampleCachedState).1.tasks = sampleCachedState.tasks)
      ∧ ((updateSubtaskStatus true true sampleBackend 9 Status.completed
            sampleCachedState).2.filter Event.isGoalOrTaskFetch = [])
      ∧ ((updateSubtaskStatus true true sampleBackend 9 Status.completed
            sampleCachedState).2.filter Event.isSubtaskFetch
          = [Event.getSubtasks 5]) :=
  c8_narrow_refetch sampleBackend 9 Status.completed sampleCachedState 5
    (by decide)

/-! ## C9 — failure surfacing -/

/-- C9, counterexample.  The claim asserts that every failure,
including read failures, is surfaced to the user.  A failed subtask
fetch for task 1 leaves the component state exactly unchanged and emits
no user-visible notice — the only `window.alert`-free surfacing is a
`console.error` line on the developer console — so nothing about the
failure is presented to the user. -/
theorem c9_read_failure_silent :
    ((fetchSubtasks false sampleBackend 1 TasksState.initial).1
        = TasksState.initial)
      ∧ ((fetchSubtasks false sampleBackend 1 TasksState.initial).2.filter
            Event.isAlert = [])
      ∧ (Event.consoleError errFetchSubtasksMsg
          ∈ (fetchSubtasks false sampleBackend 1 TasksState.initial).2) := by
  decide

/-- C9, amended.  Mutation failures are surfaced with a user-visible
alert, but read failures are only logged to the developer console: a
failed subtask fetch (for an uncached task) and a failed goals fetch
leave all previously loaded collections intact, emit no alert, and
issue no automatic retry (exactly one GET appears in the trace). -/
theorem c9_failure_surfacing (B : Backend) (t taskId subtaskId : Nat)
    (newStatus : Status) (fetchFailAt : Option Nat) (refetchOk : Bool)
    (st : TasksState) (h : lookupA t st.subtasks = none) :
    ((fetchSubtasks false B t st).1 = st)
      ∧ ((fetchSubtasks false B t st).2
          = [Event.getSubtasks t, Event.consoleError errFetchSubtasksMsg])
      ∧ ((fetchTasksData (some 0) B st).1.goals = st.goals)
      ∧ ((fetchTasksData (some 0) B st).1.tasks = st.tasks)
      ∧ ((fetchTasksData (some 0) B st).1.subtasks = st.subtasks)
      ∧ ((fetchTasksData (some 0) B st).2
          = [Event.getGoals, Event.consoleError errFetchTasksMsg])
      ∧ (Event.alert alertUpdateTaskMsg
          ∈ (updateTaskStatus false fetchFailAt B taskId newStatus st).2)
      ∧ (Event.alert alertUpdateSubtaskMsg
          ∈ (updateSubtaskStatus false refetchOk B subtaskId newStatus
              st).2) := by
  have hns : ¬ (lookupA t st.subtasks).isSome = true := by
    rw [h]
    simp
  refine ⟨?_, ?_, rfl, rfl, rfl, rfl, ?_, ?_⟩
  · simp [fetchSubtasks, hns]
  · simp [fetchSubtasks, hns]
  · simp [updateTaskStatus]
  · simp [updateSubtaskStatus]

/-- C9, witness for the amended theorem at task 1 of the fresh state. -/
theorem c9_failure_surfacing_witness :
    ((fetchSubtasks false sampleBackend 1 TasksState.initial).1
        = TasksState.initial)
      ∧ ((fetchSubtasks false sampleBackend 1 TasksState.initial).2
          = [Event.getSubtasks 1, Event.consoleError errFetchSubtasksMsg])
      ∧ ((fetchTasksData (some 0) sampleBackend TasksState.initial).1.goals
          = TasksState.initial.goals)
      ∧ ((fetchTasksData (some 0) sampleBackend TasksState.initial).1.tasks
          = TasksState.initial.tasks)
      ∧ ((fetchTasksData (some 0) sampleBackend TasksState.initial).1.subtasks
          = TasksState.initial.subtasks)
      ∧ ((fetchTasksData (some 0) sampleBackend TasksState.initial).2
          = [Event.getGoals, Event.consoleError errFetchTasksMsg])
      ∧ (Event.alert alertUpdateTaskMsg
          ∈ (updateTaskStatus false none sampleBackend 2 Status.completed
              TasksState.initial).2)
      ∧ (Event.alert alertUpdateSubtaskMsg
          ∈ (updateSubtaskStatus false true sampleBackend 9 Status.completed
              TasksState.initial).2) :=
  c9_failure_surfacing sampleBackend 1 2 9 Status.completed none true
    TasksState.initial (by decide)

/-! ## C10 — update of a subtask absent from the cache -/

/-- C10.  When the updated subtask id occurs in no cached subtask
collection, a successful `updateSubtaskStatus` still issues the PUT,
but performs no refetch afterwards (no GET of any kind appears in the
trace) and leaves every cached collection — subtasks, tasks and
goals — exactly unchanged, so the locally displayed status can go
stale. -/
theorem c10_uncached_subtask_update (B : Backend) (refetchOk : Bool)
    (subtaskId : Nat) (newStatus : Status) (st : TasksState)
    (h : findParent st.subtasks subtaskId = none) :
    (Event.putSubtask subtaskId newStatus
        ∈ (updateSubtaskStatus true refetchOk B subtaskId newStatus st).2)
      ∧ ((updateSubtaskStatus true refetchOk B subtaskId newStatus
            st).2.filter Event.isSubtaskFetch = [])
      ∧ ((updateSubtaskStatus true refetchOk B subtaskId newStatus
            st).2.filter Event.isGoalOrTaskFetch = [])
      ∧ ((updateSubtaskStatus true refetchOk B subtaskId newStatus
            st).1.subtasks = st.subtasks)
      ∧ ((updateSubtaskStatus true refetchOk B subtaskId newStatus
            st).1.tasks = st.tasks)
      ∧ ((updateSubtaskStatus true refetchOk B subtaskId newStatus
            st).1.goals = st.goals) := by
  have hred : updateSubtaskStatus true refetchOk B subtaskId newStatus st
      = ({ st with
            loadingStates := setA (subtaskKey subtaskId) false
              (setA (subtaskKey subtaskId) true st.loadingStates) },
         [Event.setLoadingFlag (subtaskKey subtaskId) true,
          Event.putSubtask subtaskId newStatus,
          Event.setLoadingFlag (subtaskKey subtaskId) false]) := by
    simp only [updateSubtaskStatus, h]
    rfl
  rw [hred]
  refine ⟨?_, ?_, ?_, rfl, rfl, rfl⟩
  · simp
  · simp [Event.isSubtaskFetch]
  · simp [Event.isGoalOrTaskFetch]

/-- C10, witness: updating subtask 42, cached nowhere in the sample
cached state, issues only the PUT and changes no cache entry. -/
theorem c10_uncached_subtask_update_witness :
    (Event.putSubtask 42 Status.completed
        ∈ (updateSubtaskStatus true true sampleBackend 42 Status.completed
            sampleCachedState).2)
      ∧ ((updateSubtaskStatus true true sampleBackend 42 Status.completed
            sampleCachedState).2.filter Event.isSubtaskFetch = [])
      ∧ ((updateSubtaskStatus true true sampleBackend 42 Status.completed
            sampleCachedState).2.filter Event.isGoalOrTaskFetch = [])
      ∧ ((updateSubtaskStatus true true sampleBackend 42 Status.completed
            sampleCachedState).1.subtasks = sampleCachedState.subtasks)
      ∧ ((updateSubtaskStatus true true sampleBackend 42 Status.completed
            sampleCachedState).1.tasks = sampleCachedState.tasks)
      ∧ ((updateSubtaskStatus true true sampleBackend 42 Status.completed
            sampleCachedState).1.goals = sampleCachedState.goals) :=
  c10_uncached_subtask_update sampleBackend true 42 Status.completed
    sampleCachedState (by decide)

end PathCraft
